import Mathlib

/-!
Verification of the `http` module of anyshortcut.cli (src/src/http.rs),
a thin synchronous HTTP client built on a native transfer library (curl).

The curl easy handle is embedded as an explicit record of the options the
program configures (`Easy`); each native setter is a fallible state
transformer whose native-level success is decided by an oracle environment
(`CurlEnv`), since native failures are outside the program.  A blocking
transfer's observable outcome (native success of `perform`, the status code,
the header lines delivered to the header callback, the body chunks delivered
to the write callback) is the `TransferOutcome` oracle.  All program logic
(`Client`, `Request`, `Response`, `handle_request`) is translated directly
from the source.
-/

/-- Opaque error type: `pub struct Error {}` in the source.  Every native
failure converts into this same payload-free value via `From<curl::Error>`. -/
structure Error where
deriving DecidableEq, Repr

/-- `pub enum ErrorKind { InvalidToken, RequestFailed }` — declared in the
source but never produced or consulted. -/
inductive ErrorKind where
  | InvalidToken : ErrorKind
  | RequestFailed : ErrorKind
deriving DecidableEq, Repr

/-- `pub enum Method { Get, Head, Post, Put, Delete }`. -/
inductive Method where
  | Get : Method
  | Head : Method
  | Post : Method
  | Put : Method
  | Delete : Method
deriving DecidableEq, Repr

/-- `impl fmt::Display for Method`. -/
def Method.toDisplay : Method → String
  | Method.Get => "GET"
  | Method.Head => "HEAD"
  | Method.Post => "POST"
  | Method.Put => "PUT"
  | Method.Delete => "DELETE"

/-- State of the native curl easy handle: exactly the options this program
ever sets.  A freshly created or reset handle has all fields at their
defaults (`Easy.init`). -/
structure Easy where
  get_flag : Bool
  custom_request : Option String
  nobody : Bool
  url : Option String
  verbose : Bool
  http_headers : List String
  upload : Bool
  in_filesize : Option Nat
deriving DecidableEq, Repr

/-- The state of a handle produced by `curl::easy::Easy::new()` or by
`handle.reset()`. -/
def Easy.init : Easy :=
  { get_flag := false
    custom_request := none
    nobody := false
    url := none
    verbose := false
    http_headers := []
    upload := false
    in_filesize := none }

/-- `handle.reset()` clears any leftover configuration. -/
def Easy.reset (_h : Easy) : Easy := Easy.init

/-- Oracle for the native library: whether each native call succeeds, and
whether a given header line can be appended to a `curl::easy::List`
(`List::append` is fallible on malformed input). -/
structure CurlEnv where
  getOk : Bool
  customOk : Bool
  nobodyOk : Bool
  urlOk : Bool
  verboseOk : Bool
  httpHeadersOk : Bool
  uploadOk : Bool
  inFilesizeOk : Bool
  readFnOk : Bool
  writeFnOk : Bool
  headerFnOk : Bool
  statusOk : Bool
  appendOk : String → Bool

/-- `handle.get(b)` — sets the HTTP-GET (body download) flag. -/
def Easy.get (env : CurlEnv) (h : Easy) (b : Bool) : Except Error Easy :=
  if env.getOk then Except.ok { h with get_flag := b } else Except.error Error.mk

/-- `handle.custom_request(s)` — overrides the verb string. -/
def Easy.setCustomRequest (env : CurlEnv) (h : Easy) (s : String) : Except Error Easy :=
  if env.customOk then Except.ok { h with custom_request := some s } else Except.error Error.mk

/-- `handle.nobody(b)` — suppresses response body reception. -/
def Easy.setNobody (env : CurlEnv) (h : Easy) (b : Bool) : Except Error Easy :=
  if env.nobodyOk then Except.ok { h with nobody := b } else Except.error Error.mk

/-- `handle.url(u)` — sets the destination URL. -/
def Easy.setUrl (env : CurlEnv) (h : Easy) (u : String) : Except Error Easy :=
  if env.urlOk then Except.ok { h with url := some u } else Except.error Error.mk

/-- `handle.verbose(b)` — enables verbose diagnostic logging. -/
def Easy.setVerbose (env : CurlEnv) (h : Easy) (b : Bool) : Except Error Easy :=
  if env.verboseOk then Except.ok { h with verbose := b } else Except.error Error.mk

/-- `handle.http_headers(list)` — installs the accumulated header list. -/
def Easy.setHttpHeaders (env : CurlEnv) (h : Easy) (l : List String) : Except Error Easy :=
  if env.httpHeadersOk then Except.ok { h with http_headers := l } else Except.error Error.mk

/-- `handle.upload(b)` — marks the transfer as an upload. -/
def Easy.setUpload (env : CurlEnv) (h : Easy) (b : Bool) : Except Error Easy :=
  if env.uploadOk then Except.ok { h with upload := b } else Except.error Error.mk

/-- `handle.in_filesize(n)` — declares the upload size in bytes. -/
def Easy.setInFilesize (env : CurlEnv) (h : Easy) (n : Nat) : Except Error Easy :=
  if env.inFilesizeOk then Except.ok { h with in_filesize := some n } else Except.error Error.mk

/-- `curl::easy::List::append(s)` — appends one raw header line; fails on
input the native library rejects (decided by the oracle), leaving the list
unmodified. -/
def listAppend (env : CurlEnv) (l : List String) (s : String) : Except Error (List String) :=
  if env.appendOk s then Except.ok (l ++ [s]) else Except.error Error.mk

/-- The fixed header appended by `Request::new`:
`format!("User-Agent: anyshortcut-cli/{}", "0.0.1")`. -/
def uaHeader : String := "User-Agent: anyshortcut-cli/" ++ "0.0.1"

/-- A request being configured: borrowed handle state, pending header list,
optional body bytes (one byte per `Nat`). -/
structure Request where
  handle : Easy
  headers : List String
  body : Option (List Nat)
deriving DecidableEq, Repr

/-- `Request::new(handle, method, url)`: builds the header list with the
fixed User-Agent line (its append error discarded via `.ok()`), configures
the handle per method, sets the URL, and returns a request with no body. -/
def Request.new (env : CurlEnv) (handle : Easy) (method : Method) (url : String) :
    Except Error Request :=
  let headers : List String :=
    match listAppend env [] uaHeader with
    | Except.ok l => l
    | Except.error _ => []
  let configured : Except Error Easy :=
    match method with
    | Method.Get => Easy.get env handle true
    | Method.Head =>
      match Easy.get env handle true with
      | Except.ok h =>
        match Easy.setCustomRequest env h "HEAD" with
        | Except.ok h => Easy.setNobody env h true
        | Except.error e => Except.error e
      | Except.error e => Except.error e
    | Method.Post => Easy.setCustomRequest env handle "POST"
    | Method.Put => Easy.setCustomRequest env handle "PUT"
    | Method.Delete => Easy.setCustomRequest env handle "DELETE"
  match configured with
  | Except.ok h =>
    match Easy.setUrl env h url with
    | Except.ok h => Except.ok { handle := h, headers := headers, body := none }
    | Except.error e => Except.error e
  | Except.error e => Except.error e

/-- `Request::with_header(key, value)`: appends `"key: value"` to the
pending header list and returns the request for chaining; propagates the
append error. -/
def Request.with_header (env : CurlEnv) (r : Request) (key value : String) :
    Except Error Request :=
  match listAppend env r.headers (key ++ ": " ++ value) with
  | Except.ok hs => Except.ok { r with headers := hs }
  | Except.error e => Except.error e

/-- The read callback installed by `send`: either the no-body closure
`|_| 0`, or the closure reading from the remaining body slice
(`body.read(buffer).unwrap_or(0)`). -/
inductive ReadCb where
  | noBody : ReadCb
  | fromBody : List Nat → ReadCb
deriving DecidableEq, Repr

/-- One invocation of the read callback with a buffer of `bufLen` bytes:
returns the byte count written into the buffer and the callback's next
state (the slice pointer advanced past the bytes read). -/
def ReadCb.run : ReadCb → Nat → Nat × ReadCb
  | ReadCb.noBody, _ => (0, ReadCb.noBody)
  | ReadCb.fromBody rem, bufLen => (min rem.length bufLen, ReadCb.fromBody (rem.drop bufLen))

/-- `pub struct Response { status, headers, body }`. -/
structure Response where
  status : Nat
  headers : List String
  body : Option (List Nat)
deriving DecidableEq, Repr

/-- `Response::failed(): self.status >= 400 && self.status <= 600`. -/
def Response.failed (r : Response) : Bool :=
  decide (400 ≤ r.status) && decide (r.status ≤ 600)

/-- `Response::ok(): !self.failed()`. -/
def Response.ok (r : Response) : Bool := !r.failed

/-- What arrives from the network during `perform`: whether the native
transfer succeeds, the final status code, the header lines delivered to the
header callback (already lossily decoded), and the data chunks delivered to
the write callback. -/
structure TransferOutcome where
  performOk : Bool
  status : Nat
  headerLines : List String
  bodyChunks : List (List Nat)

/-- `handle_request(handle, read)`: registers the read/write/header
callbacks, performs the blocking transfer (the write callback accumulates
every delivered chunk into `response_body`; the header callback captures
every header line and always returns success), reads the final status code,
and wraps everything into a `Response` with `body: Some(response_body)`.
Any native failure propagates as the opaque error. -/
def handle_request (env : CurlEnv) (t : TransferOutcome) (_h : Easy) (_read : ReadCb) :
    Except Error Response :=
  if env.readFnOk then
    if env.writeFnOk then
      if env.headerFnOk then
        if t.performOk then
          if env.statusOk then
            Except.ok { status := t.status, headers := t.headerLines, body := some t.bodyChunks.flatten }
          else Except.error Error.mk
        else Except.error Error.mk
      else Except.error Error.mk
    else Except.error Error.mk
  else Except.error Error.mk

/-- The configuration phase of `Request::send`, before `handle_request`:
enables verbose logging, installs the header list, and — when a body is
present — marks the transfer as an upload, declares its exact size and
selects the body-reading callback; with no body it selects the no-op
callback and touches nothing else. -/
def Request.sendSetup (env : CurlEnv) (r : Request) : Except Error (Easy × ReadCb) :=
  match Easy.setVerbose env r.handle true with
  | Except.error e => Except.error e
  | Except.ok h =>
    match Easy.setHttpHeaders env h r.headers with
    | Except.error e => Except.error e
    | Except.ok h =>
      match r.body with
      | some body =>
        match Easy.setUpload env h true with
        | Except.error e => Except.error e
        | Except.ok h =>
          match Easy.setInFilesize env h body.length with
          | Except.error e => Except.error e
          | Except.ok h => Except.ok (h, ReadCb.fromBody body)
      | none => Except.ok (h, ReadCb.noBody)

/-- `Request::send(self)`: configure, then perform via `handle_request`. -/
def Request.send (env : CurlEnv) (t : TransferOutcome) (r : Request) :
    Except Error Response :=
  match Request.sendSetup env r with
  | Except.ok (h, cb) => handle_request env t h cb
  | Except.error e => Except.error e

/-- `pub struct Client`: base URL, token, and the shared handle (the
`RefCell` interior mutability becomes explicit state passing). -/
structure Client where
  base_url : String
  token : String
deriving DecidableEq, Repr

/-- `Client::new(base_url, token)`: stores the strings and creates one
fresh handle. -/
def Client.new (base_url token : String) : Client × Easy :=
  ({ base_url := base_url, token := token }, Easy.init)

/-- `Client::request(endpoint, method)`: concatenates base URL and endpoint
(`format!("{}{}", ...)`), resets the shared handle, and constructs a
`Request`. -/
def Client.request (env : CurlEnv) (c : Client) (h : Easy) (endpoint : String)
    (method : Method) : Except Error Request :=
  let url := c.base_url ++ endpoint
  let h := Easy.reset h
  Request.new env h method url

/-- `Client::get(endpoint)`: `request(endpoint, Get)?.send()`. -/
def Client.get (env : CurlEnv) (t : TransferOutcome) (c : Client) (h : Easy)
    (endpoint : String) : Except Error Response :=
  match Client.request env c h endpoint Method.Get with
  | Except.ok r => Request.send env t r
  | Except.error e => Except.error e

/-! ## Environments and helper lemmas -/

/-- An oracle environment in which every native call succeeds. -/
def envAllOk : CurlEnv :=
  { getOk := true
    customOk := true
    nobodyOk := true
    urlOk := true
    verboseOk := true
    httpHeadersOk := true
    uploadOk := true
    inFilesizeOk := true
    readFnOk := true
    writeFnOk := true
    headerFnOk := true
    statusOk := true
    appendOk := fun _ => true }

/-- On success, `Request::new` has set the destination URL on the handle,
left the body empty, and built the header list from the User-Agent append. -/
theorem Request.new_ok_shape (env : CurlEnv) (h0 : Easy) (m : Method) (u : String)
    (r : Request) (hnew : Request.new env h0 m u = Except.ok r) :
    r.handle.url = some u ∧ r.body = none
    ∧ r.headers = (if env.appendOk uaHeader then [uaHeader] else []) := by
  simp only [Request.new, listAppend, Easy.setUrl] at hnew
  by_cases hu : env.urlOk <;> simp only [hu, if_true, if_false] at hnew
  · split at hnew
    · cases hnew
      by_cases ha : env.appendOk uaHeader <;>
        simp only [ha, if_true, if_false] at * <;> simp_all
    · cases hnew
  · split at hnew <;> cases hnew

/-- The witness request: what `Client.request` produces for
`base_url = "http://api.test"`, `endpoint = "/v1/x"`, method GET, in the
all-success environment. -/
def reqW : Request :=
  { handle :=
    { get_flag := true
      custom_request := none
      nobody := false
      url := some "http://api.test/v1/x"
      verbose := false
      http_headers := []
      upload := false
      in_filesize := none }
    headers := [uaHeader]
    body := none }

/-- C1: `failed()` is true iff `400 <= status <= 600` (both inclusive),
`ok()` is its exact negation, and at statuses 200, 399, 601 `ok()` is true
while at 400 and 600 `failed()` is true. -/
theorem c1_failed_ok (r : Response) :
    (r.failed = true ↔ 400 ≤ r.status ∧ r.status ≤ 600)
    ∧ r.ok = !r.failed
    ∧ (Response.mk 200 [] none).ok = true
    ∧ (Response.mk 399 [] none).ok = true
    ∧ (Response.mk 601 [] none).ok = true
    ∧ (Response.mk 400 [] none).failed = true
    ∧ (Response.mk 600 [] none).failed = true := by
  refine ⟨?_, rfl, by decide, by decide, by decide, by decide, by decide⟩
  simp [Response.failed]

/-- C2: the URL configured by `Client.request` is the literal concatenation
of `base_url` and `endpoint`, with no separator inserted and no slash
normalization. -/
theorem c2_url_is_concat (env : CurlEnv) (c : Client) (h : Easy) (ep : String)
    (m : Method) (r : Request)
    (hreq : Client.request env c h ep m = Except.ok r) :
    r.handle.url = some (c.base_url ++ ep) := by
  simp only [Client.request, Easy.reset] at hreq
  exact (Request.new_ok_shape env Easy.init m (c.base_url ++ ep) r hreq).1

/-- C2 witness: `base_url = "http://api.test"`, `endpoint = "/v1/x"` give
requested URL `"http://api.test/v1/x"`. -/
theorem c2_url_is_concat_witness :
    Client.request envAllOk (Client.mk "http://api.test" "t") Easy.init "/v1/x" Method.Get
      = Except.ok reqW
    ∧ reqW.handle.url = some ("http://api.test" ++ "/v1/x") := by
  refine ⟨by rfl, ?_⟩
  exact c2_url_is_concat envAllOk (Client.mk "http://api.test" "t") Easy.init "/v1/x"
    Method.Get reqW (by rfl)

/-- C3: two clients with the same base URL but different tokens configure
the handle identically on every request; the token never influences the
outgoing request (no Authorization header is ever built from it). -/
theorem c3_token_never_sent (env : CurlEnv) (c1 c2 : Client) (h : Easy)
    (ep : String) (m : Method) (hbase : c1.base_url = c2.base_url) :
    Client.request env c1 h ep m = Client.request env c2 h ep m
    ∧ (∀ t : TransferOutcome, Client.get env t c1 h ep = Client.get env t c2 h ep) := by
  constructor
  · simp only [Client.request, hbase]
  · intro t
    simp only [Client.get, Client.request, hbase]

/-- C3 witness: tokens `"tokenA"` and `"tokenB"` yield identical requests. -/
theorem c3_token_never_sent_witness :
    Client.request envAllOk (Client.mk "http://api.test" "tokenA") Easy.init "/v1/x" Method.Get
      = Client.request envAllOk (Client.mk "http://api.test" "tokenB") Easy.init "/v1/x" Method.Get :=
  (c3_token_never_sent envAllOk (Client.mk "http://api.test" "tokenA")
    (Client.mk "http://api.test" "tokenB") Easy.init "/v1/x" Method.Get rfl).1

/-- C6: every `Client.request` resets the shared handle before configuring
it — the constructed request is exactly `Request::new` applied to a freshly
reset handle, hence independent of whatever state a previous request left
on the handle; the same holds for `Client.get`. -/
theorem c6_reset_before_config (env : CurlEnv) (c : Client) (h1 h2 : Easy)
    (ep : String) (m : Method) :
    Client.request env c h1 ep m = Request.new env Easy.init m (c.base_url ++ ep)
    ∧ Client.request env c h1 ep m = Client.request env c h2 ep m
    ∧ (∀ t : TransferOutcome, Client.get env t c h1 ep = Client.get env t c h2 ep) := by
  refine ⟨rfl, rfl, fun t => rfl⟩

/-- On success, `with_header` returns the same request with exactly the one
line `"key: value"` appended at the end of the pending header list. -/
theorem Request.with_header_ok_shape (env : CurlEnv) (r : Request) (k v : String)
    (r2 : Request) (hw : Request.with_header env r k v = Except.ok r2) :
    r2 = { r with headers := r.headers ++ [k ++ ": " ++ v] } := by
  by_cases ha : env.appendOk (k ++ ": " ++ v) = true <;>
    simp [Request.with_header, listAppend, ha] at hw
  exact hw.symm

/-- On success with no body, `sendSetup` selects the no-op read callback
and only enables verbose logging and installs the header list: the upload
flag and the upload size are left untouched. -/
theorem Request.sendSetup_none_shape (env : CurlEnv) (r : Request) (hh : Easy)
    (cb : ReadCb) (hb : r.body = none)
    (hs : Request.sendSetup env r = Except.ok (hh, cb)) :
    cb = ReadCb.noBody ∧ hh.upload = r.handle.upload
    ∧ hh.in_filesize = r.handle.in_filesize ∧ hh.http_headers = r.headers := by
  by_cases hv : env.verboseOk = true <;>
    by_cases hl : env.httpHeadersOk = true <;>
    simp [Request.sendSetup, Easy.setVerbose, Easy.setHttpHeaders, hb, hv, hl] at hs
  obtain ⟨hhh, hcb⟩ := hs
  subst hcb
  simp [← hhh]

/-- On success with a body, `sendSetup` marks the transfer as an upload,
declares the exact body length, selects the body-reading callback, and
installs the header list. -/
theorem Request.sendSetup_some_shape (env : CurlEnv) (r : Request) (body : List Nat)
    (hh : Easy) (cb : ReadCb) (hb : r.body = some body)
    (hs : Request.sendSetup env r = Except.ok (hh, cb)) :
    hh.upload = true ∧ hh.in_filesize = some body.length
    ∧ cb = ReadCb.fromBody body ∧ hh.http_headers = r.headers := by
  by_cases hv : env.verboseOk = true <;>
    by_cases hl : env.httpHeadersOk = true <;>
    by_cases hu : env.uploadOk = true <;>
    by_cases hf : env.inFilesizeOk = true <;>
    simp [Request.sendSetup, Easy.setVerbose, Easy.setHttpHeaders, Easy.setUpload,
      Easy.setInFilesize, hb, hv, hl, hu, hf] at hs
  obtain ⟨hhh, hcb⟩ := hs
  subst hcb
  simp [← hhh]

/-- C4: per-method handle configuration by `Request::new` starting from a
reset handle — GET sets the download flag only; HEAD sets the download
flag, overrides the verb to "HEAD" and suppresses body reception;
POST/PUT/DELETE set only their custom verb string; no method touches the
upload flag, upload size or verbose flag. -/
theorem c4_method_configuration (env : CurlEnv) (m : Method) (u : String) (r : Request)
    (hnew : Request.new env Easy.init m u = Except.ok r) :
    (m = Method.Get → r.handle.get_flag = true ∧ r.handle.custom_request = none
      ∧ r.handle.nobody = false)
    ∧ (m = Method.Head → r.handle.get_flag = true ∧ r.handle.custom_request = some "HEAD"
      ∧ r.handle.nobody = true)
    ∧ (m = Method.Post → r.handle.get_flag = false ∧ r.handle.custom_request = some "POST"
      ∧ r.handle.nobody = false)
    ∧ (m = Method.Put → r.handle.get_flag = false ∧ r.handle.custom_request = some "PUT"
      ∧ r.handle.nobody = false)
    ∧ (m = Method.Delete → r.handle.get_flag = false ∧ r.handle.custom_request = some "DELETE"
      ∧ r.handle.nobody = false)
    ∧ r.handle.upload = false ∧ r.handle.in_filesize = none ∧ r.handle.verbose = false := by
  cases m <;>
    by_cases hg : env.getOk = true <;>
    by_cases hc : env.customOk = true <;>
    by_cases hn : env.nobodyOk = true <;>
    by_cases hu : env.urlOk = true <;>
    by_cases ha : env.appendOk uaHeader = true <;>
    simp [Request.new, Easy.get, Easy.setCustomRequest, Easy.setNobody, Easy.setUrl,
      listAppend, Easy.init, hg, hc, hn, hu, ha] at hnew <;>
    simp_all [← hnew]

/-- The witness request for HEAD: what `Request::new` produces from a reset
handle in the all-success environment. -/
def reqHeadW : Request :=
  { handle :=
    { get_flag := true
      custom_request := some "HEAD"
      nobody := true
      url := some "http://api.test/v1/x"
      verbose := false
      http_headers := []
      upload := false
      in_filesize := none }
    headers := [uaHeader]
    body := none }

/-- C4 witness: HEAD on a reset handle sets the download flag, the custom
verb "HEAD" and the nobody flag. -/
theorem c4_method_configuration_witness :
    Request.new envAllOk Easy.init Method.Head "http://api.test/v1/x" = Except.ok reqHeadW
    ∧ (reqHeadW.handle.get_flag = true ∧ reqHeadW.handle.custom_request = some "HEAD"
      ∧ reqHeadW.handle.nobody = true) :=
  ⟨by rfl,
    (c4_method_configuration envAllOk Method.Head "http://api.test/v1/x" reqHeadW
      (by rfl)).2.1 rfl⟩

/-- C5: `send` with `body = Some(bytes)` marks the transfer as an upload
and declares `in_filesize` equal to the exact byte length; with
`body = None` it leaves the upload flag and `in_filesize` untouched and
installs the read callback that immediately returns zero bytes. -/
theorem c5_upload_configuration (env : CurlEnv) (r : Request) (hh : Easy) (cb : ReadCb)
    (hs : Request.sendSetup env r = Except.ok (hh, cb)) :
    (∀ body : List Nat, r.body = some body →
      hh.upload = true ∧ hh.in_filesize = some body.length ∧ cb = ReadCb.fromBody body)
    ∧ (r.body = none →
      hh.upload = r.handle.upload ∧ hh.in_filesize = r.handle.in_filesize
      ∧ cb = ReadCb.noBody)
    ∧ (∀ bufLen : Nat, ReadCb.run ReadCb.noBody bufLen = (0, ReadCb.noBody)) := by
  refine ⟨?_, ?_, fun bufLen => rfl⟩
  · intro body hb
    have := Request.sendSetup_some_shape env r body hh cb hb hs
    exact ⟨this.1, this.2.1, this.2.2.1⟩
  · intro hb
    have := Request.sendSetup_none_shape env r hh cb hb hs
    exact ⟨this.2.1, this.2.2.1, this.1⟩

/-- The witness request with a three-byte body. -/
def reqBodyW : Request := { reqW with body := some [1, 2, 3] }

/-- The handle state produced by `sendSetup` on the three-byte-body witness
request. -/
def easyBodyW : Easy :=
  { get_flag := true
    custom_request := none
    nobody := false
    url := some "http://api.test/v1/x"
    verbose := true
    http_headers := [uaHeader]
    upload := true
    in_filesize := some 3 }

/-- C5 witness: a request with body `[1, 2, 3]` is configured with
`upload = true` and `in_filesize = 3`. -/
theorem c5_upload_configuration_witness :
    Request.sendSetup envAllOk reqBodyW = Except.ok (easyBodyW, ReadCb.fromBody [1, 2, 3])
    ∧ (easyBodyW.upload = true ∧ easyBodyW.in_filesize = some ([1, 2, 3] : List Nat).length
      ∧ ReadCb.fromBody [1, 2, 3] = ReadCb.fromBody [1, 2, 3]) :=
  ⟨by rfl,
    (c5_upload_configuration envAllOk reqBodyW easyBodyW (ReadCb.fromBody [1, 2, 3])
      (by rfl)).1 [1, 2, 3] rfl⟩

/-- C7: when every native step succeeds, `handle_request` returns
`Ok(Response)` whatever the status code is (4xx/5xx included); an `Error`
arises only from a native-library failure. -/
theorem c7_error_only_native (env : CurlEnv) (t : TransferOutcome) (h : Easy) (cb : ReadCb) :
    (env.readFnOk = true → env.writeFnOk = true → env.headerFnOk = true →
      t.performOk = true → env.statusOk = true →
      handle_request env t h cb
        = Except.ok (Response.mk t.status t.headerLines (some t.bodyChunks.flatten)))
    ∧ (∀ e : Error, handle_request env t h cb = Except.error e →
      env.readFnOk = false ∨ env.writeFnOk = false ∨ env.headerFnOk = false
        ∨ t.performOk = false ∨ env.statusOk = false) := by
  constructor
  · intro h1 h2 h3 h4 h5
    simp [handle_request, h1, h2, h3, h4, h5]
  · intro e he
    simp only [handle_request] at he
    repeat' split at he
    all_goals simp_all

/-- C7 witness: a completed transfer with status 404 yields `Ok`, not an
error. -/
theorem c7_error_only_native_witness :
    handle_request envAllOk (TransferOutcome.mk true 404 [] []) Easy.init ReadCb.noBody
      = Except.ok (Response.mk 404 [] (some [])) :=
  (c7_error_only_native envAllOk (TransferOutcome.mk true 404 [] []) Easy.init
    ReadCb.noBody).1 rfl rfl rfl rfl rfl

/-- C8: `with_header(key, value)` appends exactly the line `"key: value"`
to the pending header list and returns the request for chaining; chained
calls keep call order; `Request::new` seeds the list with the fixed
User-Agent line; `send` installs the pending list as the outgoing header
list; and a line the native library rejects yields an `Error` instead of a
corrupted list. -/
theorem c8_with_header_append (env : CurlEnv) (r : Request) (k v k2 v2 : String)
    (h0 : Easy) (m : Method) (u : String) :
    (env.appendOk (k ++ ": " ++ v) = true →
      Request.with_header env r k v
        = Except.ok { r with headers := r.headers ++ [k ++ ": " ++ v] })
    ∧ (env.appendOk (k ++ ": " ++ v) = false →
      Request.with_header env r k v = Except.error Error.mk)
    ∧ (∀ r1 r2 : Request, Request.with_header env r k v = Except.ok r1 →
      Request.with_header env r1 k2 v2 = Except.ok r2 →
      r2.headers = r.headers ++ [k ++ ": " ++ v, k2 ++ ": " ++ v2])
    ∧ (env.appendOk uaHeader = true →
      ∀ rn : Request, Request.new env h0 m u = Except.ok rn → rn.headers = [uaHeader])
    ∧ (∀ hh : Easy, ∀ cb : ReadCb, Request.sendSetup env r = Except.ok (hh, cb) →
      hh.http_headers = r.headers) := by
  refine ⟨?_, ?_, ?_, ?_, ?_⟩
  · intro ha
    simp [Request.with_header, listAppend, ha]
  · intro ha
    simp [Request.with_header, listAppend, ha]
  · intro r1 r2 h1 h2
    have e1 := Request.with_header_ok_shape env r k v r1 h1
    subst e1
    have e2 := Request.with_header_ok_shape env _ k2 v2 r2 h2
    subst e2
    simp
  · intro ha rn hn
    have := (Request.new_ok_shape env h0 m u rn hn).2.2
    simpa [ha] using this
  · intro hh cb hs
    cases hb : r.body with
    | none => exact (Request.sendSetup_none_shape env r hh cb hb hs).2.2.2
    | some body => exact (Request.sendSetup_some_shape env r body hh cb hb hs).2.2.2

/-- C8 witness: appending `Authorization: Bearer x` to the witness request
produces exactly that line at the end of the pending list. -/
theorem c8_with_header_append_witness :
    Request.with_header envAllOk reqW "Authorization" "Bearer x"
      = Except.ok { reqW with
          headers := reqW.headers ++ ["Authorization" ++ ": " ++ "Bearer x"] } :=
  (c8_with_header_append envAllOk reqW "Authorization" "Bearer x" "Accept" "json"
    Easy.init Method.Get "u").1 rfl

/-- The requests reachable through the public API: built by `Request::new`
and possibly extended by `with_header` calls. -/
inductive ReachableRequest (env : CurlEnv) : Request → Prop where
  | ofNew (h : Easy) (m : Method) (u : String) (r : Request) :
      Request.new env h m u = Except.ok r → ReachableRequest env r
  | ofWithHeader (r r2 : Request) (k v : String) :
      ReachableRequest env r → Request.with_header env r k v = Except.ok r2 →
      ReachableRequest env r2

/-- C9: every request reachable through the public API has `body = None`
— no public operation ever sets it — so `send` always takes the no-body
branch: the no-op read callback is installed and the upload flag and
upload size are never set. -/
theorem c9_body_never_set (env : CurlEnv) (r : Request) (hr : ReachableRequest env r) :
    r.body = none
    ∧ (∀ hh : Easy, ∀ cb : ReadCb, Request.sendSetup env r = Except.ok (hh, cb) →
      cb = ReadCb.noBody ∧ hh.upload = r.handle.upload
        ∧ hh.in_filesize = r.handle.in_filesize) := by
  have hb : r.body = none := by
    induction hr with
    | ofNew h m u r hnew => exact (Request.new_ok_shape env h m u r hnew).2.1
    | ofWithHeader r r2 k v hre hw ih =>
      have e := Request.with_header_ok_shape env r k v r2 hw
      subst e
      simpa using ih
  refine ⟨hb, fun hh cb hs => ?_⟩
  have := Request.sendSetup_none_shape env r hh cb hb hs
  exact ⟨this.1, this.2.1, this.2.2.1⟩

/-- C9 witness: the concrete request built by `Request::new` for GET is
reachable and has no body. -/
theorem c9_body_never_set_witness : reqW.body = none :=
  (c9_body_never_set envAllOk reqW
    (ReachableRequest.ofNew Easy.init Method.Get "http://api.test/v1/x" reqW (by rfl))).1

/-- C10: every `Response` produced by a successful `handle_request` has
`body = Some(bytes)` (possibly empty), never `None`. -/
theorem c10_success_body_is_some (env : CurlEnv) (t : TransferOutcome) (h : Easy)
    (cb : ReadCb) (resp : Response)
    (hok : handle_request env t h cb = Except.ok resp) :
    ∃ bytes : List Nat, resp.body = some bytes := by
  simp only [handle_request] at hok
  repeat' split at hok
  all_goals cases hok
  exact ⟨t.bodyChunks.flatten, rfl⟩

/-- C10 witness: a successful transfer delivering chunks `[104]` and
`[105]` yields a response whose body is `Some [104, 105]`. -/
theorem c10_success_body_is_some_witness :
    ∃ bytes : List Nat,
      (Response.mk 200 ["HTTP/1.1 200 OK"] (some [104, 105])).body = some bytes :=
  c10_success_body_is_some envAllOk
    (TransferOutcome.mk true 200 ["HTTP/1.1 200 OK"] [[104], [105]])
    Easy.init ReadCb.noBody (Response.mk 200 ["HTTP/1.1 200 OK"] (some [104, 105]))
    (by rfl)

/-- C1 witness: instantiation at status 200. -/
theorem c1_failed_ok_witness :
    (Response.mk 200 [] none).failed = true ↔
      400 ≤ (Response.mk 200 [] none).status ∧ (Response.mk 200 [] none).status ≤ 600 :=
  (c1_failed_ok (Response.mk 200 [] none)).1

/-- C6 witness: a dirty handle (custom verb, upload flag, leftover headers
set) and a fresh handle give the same request. -/
theorem c6_reset_before_config_witness :
    Client.request envAllOk (Client.mk "http://api.test" "t") easyBodyW "/v1/x" Method.Get
      = Client.request envAllOk (Client.mk "http://api.test" "t") Easy.init "/v1/x" Method.Get :=
  (c6_reset_before_config envAllOk (Client.mk "http://api.test" "t") easyBodyW Easy.init
    "/v1/x" Method.Get).2.1
